import Mathlib

/-!
Verification of the payroll-perfect wage calculation engine, mark-paid
transition, attendance uniqueness, reporting aggregation and row-level
authorization policies, embedded shallowly from the TypeScript pages
(Wages.tsx, Reports.tsx, the Attendance page) and the SQL migration.
Monetary amounts (DECIMAL columns) are modelled as rationals, calendar
dates as integers, timestamps as integers, and UUIDs as strings.
-/

namespace PayrollPerfect

/-- Attendance status, per the CHECK constraint on attendance.status
(migration line 66). -/
inductive AttStatus
  | present
  | absent
  | half_day
deriving DecidableEq, Repr

/-- Wage calculation type, per the CHECK constraint on wages.calculation_type
(migration line 83). -/
inductive CalcType
  | daily
  | weekly
  | monthly
deriving DecidableEq, Repr

/-- employees table row (migration lines 44-57).  user_id is the optional
owning-principal link (REFERENCES auth.users, nullable). -/
structure EmployeeRow where
  id : String
  user_id : Option String
  full_name : String
  daily_wage : ℚ
  overtime_rate : ℚ
  half_day_rate : ℚ
  active : Bool
deriving DecidableEq, Repr

/-- attendance table row (migration lines 61-73). -/
structure AttendanceRow where
  id : String
  employee_id : String
  date : ℤ
  status : AttStatus
  overtime_hours : ℚ
  advance_taken : ℚ
  notes : Option String
deriving DecidableEq, Repr

/-- wages table row (migration lines 77-92). -/
structure WageRow where
  id : String
  employee_id : String
  period_start : ℤ
  period_end : ℤ
  calculation_type : CalcType
  base_wage : ℚ
  overtime_amount : ℚ
  advance_deductions : ℚ
  total_wage : ℚ
  paid : Bool
  paid_at : Option ℤ
  created_at : ℤ
  updated_at : ℤ
deriving DecidableEq, Repr

/-- The row calculateWage inserts into wages (Wages.tsx lines 147-158).
paid and paid_at are not in the insert payload, so they take the column
defaults paid = false (migration line 88) and paid_at = NULL. -/
structure WageInsert where
  employee_id : String
  period_start : ℤ
  period_end : ℤ
  calculation_type : CalcType
  base_wage : ℚ
  overtime_amount : ℚ
  advance_deductions : ℚ
  total_wage : ℚ
  paid : Bool
  paid_at : Option ℤ
deriving DecidableEq, Repr

/-- One step of the attendance fold in calculateWage (Wages.tsx lines
127-142), accumulating (baseWage, overtimeAmount, advanceDeductions):
present adds daily_wage to base, half_day adds half_day_rate, absent adds
nothing; overtime_hours * overtime_rate is added when overtime_hours > 0;
advance_taken is added when advance_taken > 0. -/
def wageStep (employee : EmployeeRow) (acc : ℚ × ℚ × ℚ) (att : AttendanceRow) :
    ℚ × ℚ × ℚ :=
  let baseWage :=
    if att.status = AttStatus.present then acc.1 + employee.daily_wage
    else if att.status = AttStatus.half_day then acc.1 + employee.half_day_rate
    else acc.1
  let overtimeAmount :=
    if att.overtime_hours > 0 then acc.2.1 + att.overtime_hours * employee.overtime_rate
    else acc.2.1
  let advanceDeductions :=
    if att.advance_taken > 0 then acc.2.2 + att.advance_taken
    else acc.2.2
  (baseWage, overtimeAmount, advanceDeductions)

/-- The full accumulation loop of calculateWage (Wages.tsx lines 123-142),
starting from baseWage = 0, overtimeAmount = 0, advanceDeductions = 0. -/
def wageTotals (employee : EmployeeRow) (atts : List AttendanceRow) : ℚ × ℚ × ℚ :=
  atts.foldl (wageStep employee) (0, 0, 0)

/-- The attendance fetch of calculateWage (Wages.tsx lines 113-118):
rows of the employee with date in [periodStart, periodEnd] inclusive
(.gte / .lte). -/
def fetchAttendance (attendance : List AttendanceRow) (empId : String)
    (periodStart periodEnd : ℤ) : List AttendanceRow :=
  attendance.filter (fun a =>
    a.employee_id == empId && decide (periodStart ≤ a.date) && decide (a.date ≤ periodEnd))

/-- calculateWage (Wages.tsx lines 103-171): look up the employee, fetch the
attendance slice for the period, fold it into the three amounts, compute
totalWage = baseWage + overtimeAmount - advanceDeductions, and insert a
wages row carrying the four amounts (paid/paid_at from column defaults).
A missing employee throws "Employee not found". -/
def calculateWage (employees : List EmployeeRow) (attendance : List AttendanceRow)
    (empId : String) (periodStart periodEnd : ℤ) (calcType : CalcType) :
    Except String WageInsert :=
  match employees.find? (fun e => e.id == empId) with
  | none => Except.error "Employee not found"
  | some employee =>
    let atts := fetchAttendance attendance empId periodStart periodEnd
    let t := wageTotals employee atts
    Except.ok
      { employee_id := empId
        period_start := periodStart
        period_end := periodEnd
        calculation_type := calcType
        base_wage := t.1
        overtime_amount := t.2.1
        advance_deductions := t.2.2
        total_wage := t.1 + t.2.1 - t.2.2
        paid := false
        paid_at := none }

/-- Per-record base-wage contribution as the spec states it: daily_wage when
present, half_day_rate when half_day, 0 when absent. -/
def baseContribution (employee : EmployeeRow) (att : AttendanceRow) : ℚ :=
  match att.status with
  | AttStatus.present => employee.daily_wage
  | AttStatus.half_day => employee.half_day_rate
  | AttStatus.absent => 0

/-- The scenario employee of spec §8: daily_wage 500, overtime_rate 50,
half_day_rate 250. -/
def scenarioEmployee : EmployeeRow :=
  { id := "e1", user_id := none, full_name := "Scenario Employee",
    daily_wage := 500, overtime_rate := 50, half_day_rate := 250, active := true }

/-- The scenario attendance of spec §8: present(0 OT, 0 adv),
half_day(2 OT, 0 adv), absent(0 OT, 100 adv). -/
def scenarioAttendance : List AttendanceRow :=
  [ { id := "a1", employee_id := "e1", date := 1, status := AttStatus.present,
      overtime_hours := 0, advance_taken := 0, notes := none },
    { id := "a2", employee_id := "e1", date := 2, status := AttStatus.half_day,
      overtime_hours := 2, advance_taken := 0, notes := none },
    { id := "a3", employee_id := "e1", date := 3, status := AttStatus.absent,
      overtime_hours := 0, advance_taken := 100, notes := none } ]

/-- The wage record the §8 scenario produces. -/
def scenarioWageResult : WageInsert :=
  { employee_id := "e1", period_start := 1, period_end := 3,
    calculation_type := CalcType.weekly, base_wage := 750,
    overtime_amount := 100, advance_deductions := 100, total_wage := 750,
    paid := false, paid_at := none }

/-- A single absent day with a 100 advance: earns nothing, deducts 100,
so the period total is negative. -/
def negAttendance : List AttendanceRow :=
  [ { id := "a9", employee_id := "e1", date := 2, status := AttStatus.absent,
      overtime_hours := 0, advance_taken := 100, notes := none } ]

/-- The wage record produced from negAttendance: total_wage = -100,
persisted unclamped. -/
def negWageResult : WageInsert :=
  { employee_id := "e1", period_start := 1, period_end := 3,
    calculation_type := CalcType.daily, base_wage := 0,
    overtime_amount := 0, advance_deductions := 100, total_wage := -100,
    paid := false, paid_at := none }

lemma wageTotals_foldl (employee : EmployeeRow) (atts : List AttendanceRow)
    (h : ∀ r ∈ atts, 0 ≤ r.overtime_hours ∧ 0 ≤ r.advance_taken) :
    ∀ acc : ℚ × ℚ × ℚ,
      atts.foldl (wageStep employee) acc =
        (acc.1 + (atts.map (baseContribution employee)).sum,
         acc.2.1 + (atts.map (fun r => r.overtime_hours * employee.overtime_rate)).sum,
         acc.2.2 + (atts.map (fun r => r.advance_taken)).sum) := by
  induction atts with
  | nil => intro acc; simp
  | cons a as ih =>
    intro acc
    have ha := h a (by simp)
    have has : ∀ r ∈ as, 0 ≤ r.overtime_hours ∧ 0 ≤ r.advance_taken :=
      fun r hr => h r (by simp [hr])
    rw [List.foldl_cons, ih has]
    have hbase : (wageStep employee acc a).1 = acc.1 + baseContribution employee a := by
      simp only [wageStep, baseContribution]
      cases a.status <;> simp
    have hot : (wageStep employee acc a).2.1 =
        acc.2.1 + a.overtime_hours * employee.overtime_rate := by
      simp only [wageStep]
      by_cases hpos : a.overtime_hours > 0
      · simp [hpos]
      · have hz : a.overtime_hours = 0 := le_antisymm (not_lt.mp hpos) ha.1
        simp [hpos, hz]
    have hadv : (wageStep employee acc a).2.2 = acc.2.2 + a.advance_taken := by
      simp only [wageStep]
      by_cases hpos : a.advance_taken > 0
      · simp [hpos]
      · have hz : a.advance_taken = 0 := le_antisymm (not_lt.mp hpos) ha.2
        simp [hpos, hz]
    simp only [List.map_cons, List.sum_cons, Prod.mk.injEq]
    refine ⟨?_, ?_, ?_⟩
    · rw [hbase]; ring
    · rw [hot]; ring
    · rw [hadv]; ring

/-- C1: the wage fold accumulates base_wage as the sum of the per-status
contributions (daily_wage for present, half_day_rate for half_day, 0 for
absent), overtime_amount as the sum of overtime_hours * overtime_rate, and
advance_deductions as the sum of advance_taken, for attendance records
satisfying the data-model invariant overtime_hours ≥ 0 and advance_taken ≥ 0;
and on the §8 scenario (daily_wage 500, overtime_rate 50, half_day_rate 250;
present(0,0), half_day(2,0), absent(0,100)) the engine produces base = 750,
overtime = 100, advances = 100, total = 750. -/
theorem C1_wage_accumulation (employee : EmployeeRow) (atts : List AttendanceRow)
    (h : ∀ r ∈ atts, 0 ≤ r.overtime_hours ∧ 0 ≤ r.advance_taken) :
    wageTotals employee atts =
      ((atts.map (baseContribution employee)).sum,
       (atts.map (fun r => r.overtime_hours * employee.overtime_rate)).sum,
       (atts.map (fun r => r.advance_taken)).sum)
    ∧ calculateWage [scenarioEmployee] scenarioAttendance "e1" 1 3 CalcType.weekly =
      Except.ok scenarioWageResult := by
  constructor
  · simpa [wageTotals] using wageTotals_foldl employee atts h (0, 0, 0)
  · simp [calculateWage, fetchAttendance, wageTotals, wageStep, scenarioWageResult,
      scenarioEmployee, scenarioAttendance, List.find?, List.filter]
    norm_num

theorem C1_wage_accumulation_witness :
    wageTotals scenarioEmployee scenarioAttendance =
      ((scenarioAttendance.map (baseContribution scenarioEmployee)).sum,
       (scenarioAttendance.map
         (fun r => r.overtime_hours * scenarioEmployee.overtime_rate)).sum,
       (scenarioAttendance.map (fun r => r.advance_taken)).sum) :=
  (C1_wage_accumulation scenarioEmployee scenarioAttendance (by
    intro r hr
    simp only [scenarioAttendance, List.mem_cons, List.not_mem_nil, or_false] at hr
    rcases hr with h | h | h <;> subst h <;> norm_num)).1

/-- C2: every wage record the engine produces satisfies
total_wage = base_wage + overtime_amount - advance_deductions exactly, and
the total may be negative when advances exceed the earned wage: one absent
day with a 100 advance yields total_wage = -100, persisted without
clamping. -/
theorem C2_total_wage_identity (employees : List EmployeeRow)
    (attendance : List AttendanceRow) (empId : String) (ps pe : ℤ)
    (ct : CalcType) (w : WageInsert)
    (h : calculateWage employees attendance empId ps pe ct = Except.ok w) :
    w.total_wage = w.base_wage + w.overtime_amount - w.advance_deductions
    ∧ calculateWage [scenarioEmployee] negAttendance "e1" 1 3 CalcType.daily =
        Except.ok negWageResult
    ∧ negWageResult.total_wage < 0 := by
  refine ⟨?_, ?_, ?_⟩
  · unfold calculateWage at h
    rcases hf : employees.find? (fun e => e.id == empId) with _ | e
    · rw [hf] at h; cases h
    · rw [hf] at h
      simp only [Except.ok.injEq] at h
      subst h
      rfl
  · simp [calculateWage, fetchAttendance, wageTotals, wageStep, negWageResult,
      scenarioEmployee, negAttendance, List.find?, List.filter]
  · norm_num [negWageResult]

theorem C2_total_wage_identity_witness :
    scenarioWageResult.total_wage =
      scenarioWageResult.base_wage + scenarioWageResult.overtime_amount -
        scenarioWageResult.advance_deductions :=
  (C2_total_wage_identity [scenarioEmployee] scenarioAttendance "e1" 1 3
    CalcType.weekly scenarioWageResult (by
      simp [calculateWage, fetchAttendance, wageTotals, wageStep, scenarioWageResult,
        scenarioEmployee, scenarioAttendance, List.find?, List.filter]
      norm_num)).1

/-- markAsPaid (Wages.tsx lines 173-185): an unconditional UPDATE of the
matching wages row setting paid = true and paid_at to the current time,
with no check of the prior state; the BEFORE UPDATE trigger
update_wages_updated_at (migration lines 215-217) additionally sets
updated_at = now() on the updated row. -/
def markAsPaid (wages : List WageRow) (id : String) (now : ℤ) : List WageRow :=
  wages.map (fun w =>
    if w.id == id then { w with paid := true, paid_at := some now, updated_at := now }
    else w)

/-- Row lookup by id in the wages table. -/
def getWage (wages : List WageRow) (id : String) : Option WageRow :=
  wages.find? (fun w => w.id == id)

/-- A pending wage row used to exercise markAsPaid. -/
def pendingWage : WageRow :=
  { id := "w1", employee_id := "e1", period_start := 1, period_end := 3,
    calculation_type := CalcType.weekly, base_wage := 750,
    overtime_amount := 100, advance_deductions := 100, total_wage := 750,
    paid := false, paid_at := none, created_at := 0, updated_at := 0 }

lemma getWage_markAsPaid (wages : List WageRow) (id : String) (now : ℤ) :
    getWage (markAsPaid wages id now) id =
      (getWage wages id).map
        (fun w => { w with paid := true, paid_at := some now, updated_at := now }) := by
  induction wages with
  | nil => rfl
  | cons w ws ih =>
    simp only [markAsPaid, getWage, List.map_cons, List.find?]
    by_cases hw : w.id == id
    · simp only [hw, if_pos rfl]
      simp [hw]
    · have hw' : (w.id == id) = false := by simpa using hw
      simp only [hw', if_neg, Bool.false_eq_true, not_false_iff]
      simpa [hw', markAsPaid, getWage] using ih

/-- C3 as stated is false: the second markPaid call does not leave paid_at
unchanged.  Starting from a pending row, marking it paid at time 10 and
again at time 20 leaves paid_at = 20, not the 10 written by the first
call — the update writes paid_at unconditionally. -/
theorem C3_counterexample :
    (getWage (markAsPaid (markAsPaid [pendingWage] "w1" 10) "w1" 20) "w1").map
        WageRow.paid_at ≠
      (getWage (markAsPaid [pendingWage] "w1" 10) "w1").map WageRow.paid_at := by
  simp [markAsPaid, getWage, pendingWage, List.find?]

/-- C3 (amended): calling markPaid twice on the same wage id succeeds both
times without error and yields paid = true both times; each call writes
paid_at = its own current time, so the second call overwrites the paid_at
set by the first (the update does not check the prior state). -/
theorem C3_markPaid_twice (wages : List WageRow) (id : String) (t1 t2 : ℤ)
    (w : WageRow) (h : getWage wages id = some w) :
    (getWage (markAsPaid wages id t1) id).map WageRow.paid = some true
    ∧ (getWage (markAsPaid wages id t1) id).map WageRow.paid_at = some (some t1)
    ∧ (getWage (markAsPaid (markAsPaid wages id t1) id t2) id).map WageRow.paid =
        some true
    ∧ (getWage (markAsPaid (markAsPaid wages id t1) id t2) id).map WageRow.paid_at =
        some (some t2) := by
  refine ⟨?_, ?_, ?_, ?_⟩ <;>
    simp [getWage_markAsPaid, h]

theorem C3_markPaid_twice_witness :
    (getWage (markAsPaid [pendingWage] "w1" 10) "w1").map WageRow.paid = some true
    ∧ (getWage (markAsPaid (markAsPaid [pendingWage] "w1" 10) "w1" 20) "w1").map
        WageRow.paid_at = some (some 20) :=
  ⟨(C3_markPaid_twice [pendingWage] "w1" 10 20 pendingWage (by rfl)).1,
   (C3_markPaid_twice [pendingWage] "w1" 10 20 pendingWage (by rfl)).2.2.2⟩

/-- C9 as stated is false: markPaid does change a field other than paid and
paid_at — the update_wages_updated_at trigger sets updated_at to the update
time.  Marking the pending row (updated_at = 0) paid at time 5 leaves
updated_at = 5. -/
theorem C9_counterexample :
    (getWage (markAsPaid [pendingWage] "w1" 5) "w1").map WageRow.updated_at ≠
      some pendingWage.updated_at := by
  simp [markAsPaid, getWage, pendingWage, List.find?]

/-- C9 (amended): for every existing wage row, markPaid sets paid = true,
paid_at = the current time, and — through the update_wages_updated_at
trigger — updated_at = the current time; employee_id, period_start,
period_end, calculation_type, base_wage, overtime_amount,
advance_deductions, total_wage (and created_at) are all unchanged. -/
theorem C9_markPaid_frame (wages : List WageRow) (id : String) (t : ℤ)
    (w : WageRow) (h : getWage wages id = some w) :
    (getWage (markAsPaid wages id t) id).map
        (fun x => (x.employee_id, x.period_start, x.period_end,
          x.calculation_type, x.base_wage, x.overtime_amount,
          x.advance_deductions, x.total_wage, x.paid, x.paid_at,
          x.created_at, x.updated_at)) =
      some (w.employee_id, w.period_start, w.period_end, w.calculation_type,
        w.base_wage, w.overtime_amount, w.advance_deductions, w.total_wage,
        true, some t, w.created_at, t) := by
  simp [getWage_markAsPaid, h]

theorem C9_markPaid_frame_witness :
    (getWage (markAsPaid [pendingWage] "w1" 5) "w1").map
        (fun x => (x.employee_id, x.period_start, x.period_end,
          x.calculation_type, x.base_wage, x.overtime_amount,
          x.advance_deductions, x.total_wage, x.paid, x.paid_at,
          x.created_at, x.updated_at)) =
      some (pendingWage.employee_id, pendingWage.period_start,
        pendingWage.period_end, pendingWage.calculation_type,
        pendingWage.base_wage, pendingWage.overtime_amount,
        pendingWage.advance_deductions, pendingWage.total_wage,
        true, some 5, pendingWage.created_at, 5) :=
  C9_markPaid_frame [pendingWage] "w1" 5 pendingWage (by rfl)

/-- app_role enum (migration line 2). -/
inductive AppRole
  | admin
  | employee
deriving DecidableEq, Repr

/-- user_roles table row (migration lines 5-11). -/
structure UserRoleRow where
  user_id : String
  role : AppRole
deriving DecidableEq, Repr

/-- Row-level operations a policy can gate. -/
inductive Op
  | select
  | insert
  | update
  | delete
deriving DecidableEq, Repr

/-- has_role(_user_id, _role) (migration lines 17-30): EXISTS a user_roles
row with that user and role. -/
def has_role (userRoles : List UserRoleRow) (uid : String) (r : AppRole) : Bool :=
  userRoles.any (fun ur => ur.user_id == uid && ur.role == r)

/-- SQL equality auth.uid() = user_id: true only when both sides are
non-null and equal (NULL compares unknown, which RLS treats as deny). -/
def uidEq (uid : Option String) (userId : Option String) : Bool :=
  match uid, userId with
  | some u, some v => u == v
  | _, _ => false

/-- has_role(auth.uid(), r) for a possibly-null auth.uid(). -/
def hasRoleAuth (userRoles : List UserRoleRow) (uid : Option String)
    (r : AppRole) : Bool :=
  match uid with
  | some u => has_role userRoles u r
  | none => false

/-- RLS on employees (migration lines 118-137): SELECT is allowed to admins
or to the owning principal (auth.uid() = user_id); INSERT, UPDATE and
DELETE are allowed to admins only.  Policies for the same operation are
permissive, so they combine by OR; an operation with no matching policy is
denied. -/
def employeesAllowed (userRoles : List UserRoleRow) (uid : Option String)
    (row : EmployeeRow) (op : Op) : Bool :=
  match op with
  | Op.select => hasRoleAuth userRoles uid AppRole.admin || uidEq uid row.user_id
  | Op.insert => hasRoleAuth userRoles uid AppRole.admin
  | Op.update => hasRoleAuth userRoles uid AppRole.admin
  | Op.delete => hasRoleAuth userRoles uid AppRole.admin

/-- EXISTS (SELECT 1 FROM employees WHERE employees.id = <empId> AND
employees.user_id = auth.uid()) — the ownership subquery of the attendance
and wages SELECT policies (migration lines 144-152, 171-179). -/
def ownsEmployee (employees : List EmployeeRow) (uid : Option String)
    (empId : String) : Bool :=
  employees.any (fun e => e.id == empId && uidEq uid e.user_id)

/-- RLS on attendance (migration lines 139-164): SELECT for admins or for
the principal owning the row's employee; INSERT/UPDATE/DELETE admin-only. -/
def attendanceAllowed (userRoles : List UserRoleRow)
    (employees : List EmployeeRow) (uid : Option String)
    (row : AttendanceRow) (op : Op) : Bool :=
  match op with
  | Op.select =>
      hasRoleAuth userRoles uid AppRole.admin ||
        ownsEmployee employees uid row.employee_id
  | Op.insert => hasRoleAuth userRoles uid AppRole.admin
  | Op.update => hasRoleAuth userRoles uid AppRole.admin
  | Op.delete => hasRoleAuth userRoles uid AppRole.admin

/-- RLS on wages (migration lines 166-191): same shape as attendance. -/
def wagesAllowed (userRoles : List UserRoleRow) (employees : List EmployeeRow)
    (uid : Option String) (row : WageRow) (op : Op) : Bool :=
  match op with
  | Op.select =>
      hasRoleAuth userRoles uid AppRole.admin ||
        ownsEmployee employees uid row.employee_id
  | Op.insert => hasRoleAuth userRoles uid AppRole.admin
  | Op.update => hasRoleAuth userRoles uid AppRole.admin
  | Op.delete => hasRoleAuth userRoles uid AppRole.admin

lemma uidEq_some_iff (uid : String) (userId : Option String) :
    uidEq (some uid) userId = true ↔ userId = some uid := by
  cases userId with
  | none => simp [uidEq]
  | some v =>
    simp only [uidEq, beq_iff_eq, Option.some.injEq]
    exact ⟨fun h => h.symm, fun h => h.symm⟩

/-- C4: row-level authorization.  An admin principal may select, insert,
update and delete every employees, attendance and wages row.  A non-admin
principal may select exactly the employees row it owns and the
attendance/wages rows whose employee it owns, and is denied insert, update
and delete on all three tables.  A non-admin principal owning no employee
row is allowed nothing at all on these tables. -/
theorem C4_row_level_authorization (userRoles : List UserRoleRow)
    (employees : List EmployeeRow) (uid : String) (erow : EmployeeRow)
    (arow : AttendanceRow) (wrow : WageRow) (op : Op) :
    (hasRoleAuth userRoles (some uid) AppRole.admin = true →
      employeesAllowed userRoles (some uid) erow op = true
      ∧ attendanceAllowed userRoles employees (some uid) arow op = true
      ∧ wagesAllowed userRoles employees (some uid) wrow op = true)
    ∧ (hasRoleAuth userRoles (some uid) AppRole.admin = false →
      (employeesAllowed userRoles (some uid) erow op = true ↔
        op = Op.select ∧ erow.user_id = some uid)
      ∧ (attendanceAllowed userRoles employees (some uid) arow op = true ↔
        op = Op.select ∧ ownsEmployee employees (some uid) arow.employee_id = true)
      ∧ (wagesAllowed userRoles employees (some uid) wrow op = true ↔
        op = Op.select ∧ ownsEmployee employees (some uid) wrow.employee_id = true)
      ∧ (erow.user_id ≠ some uid ∧
          ownsEmployee employees (some uid) arow.employee_id = false ∧
          ownsEmployee employees (some uid) wrow.employee_id = false →
        employeesAllowed userRoles (some uid) erow op = false
        ∧ attendanceAllowed userRoles employees (some uid) arow op = false
        ∧ wagesAllowed userRoles employees (some uid) wrow op = false)) := by
  constructor
  · intro hadm
    cases op <;>
      simp [employeesAllowed, attendanceAllowed, wagesAllowed, hadm]
  · intro hadm
    refine ⟨?_, ?_, ?_, ?_⟩
    · cases op <;>
        simp [employeesAllowed, hadm, uidEq_some_iff]
    · cases op <;>
        simp [attendanceAllowed, hadm]
    · cases op <;>
        simp [wagesAllowed, hadm]
    · rintro ⟨h1, h2, h3⟩
      have h1' : uidEq (some uid) erow.user_id = false := by
        rcases hu : uidEq (some uid) erow.user_id with _ | _
        · rfl
        · exact absurd ((uidEq_some_iff uid erow.user_id).mp hu) h1
      cases op <;>
        simp [employeesAllowed, attendanceAllowed, wagesAllowed, hadm, h1', h2, h3]

/-- Concrete principals and rows for the authorization witness: u1 is an
admin, u2 owns employee e2, e3 is unowned. -/
def witnessRoles : List UserRoleRow :=
  [ { user_id := "u1", role := AppRole.admin } ]

def ownedEmployee : EmployeeRow :=
  { id := "e2", user_id := some "u2", full_name := "Owned",
    daily_wage := 300, overtime_rate := 30, half_day_rate := 150,
    active := true }

def witnessEmployees : List EmployeeRow :=
  [ ownedEmployee,
    { id := "e3", user_id := none, full_name := "Unowned",
      daily_wage := 400, overtime_rate := 40, half_day_rate := 200,
      active := true } ]

def witnessAttendanceRow : AttendanceRow :=
  { id := "a5", employee_id := "e2", date := 7, status := AttStatus.present,
    overtime_hours := 0, advance_taken := 0, notes := none }

theorem C4_row_level_authorization_witness :
    employeesAllowed witnessRoles (some "u1")
        (ownedEmployee) Op.delete = true
    ∧ attendanceAllowed witnessRoles witnessEmployees (some "u2")
        witnessAttendanceRow Op.select = true
    ∧ attendanceAllowed witnessRoles witnessEmployees (some "u2")
        witnessAttendanceRow Op.insert = false :=
  ⟨((C4_row_level_authorization witnessRoles witnessEmployees "u1"
      ownedEmployee witnessAttendanceRow pendingWage Op.delete).1
      (by rfl)).1,
   ((C4_row_level_authorization witnessRoles witnessEmployees "u2"
      ownedEmployee witnessAttendanceRow pendingWage Op.select).2
      (by rfl)).2.1.mpr ⟨rfl, by rfl⟩,
   by
    have h := ((C4_row_level_authorization witnessRoles witnessEmployees "u2"
      ownedEmployee witnessAttendanceRow pendingWage Op.insert).2
      (by rfl)).2.1
    rcases ha : attendanceAllowed witnessRoles witnessEmployees (some "u2")
        witnessAttendanceRow Op.insert with _ | _
    · rfl
    · exact absurd (h.mp ha).1 (by simp)⟩

/-- A storage error as surfaced to the page: the Postgres SQLSTATE code the
client checks (error.code in handleSubmit). -/
structure DbError where
  code : String
deriving DecidableEq, Repr

/-- Insert into the attendance table under UNIQUE (employee_id, date)
(migration line 72): a second row for an existing (employee_id, date) pair
raises unique_violation, SQLSTATE 23505, and the table is unchanged;
otherwise the row is added. -/
def attendanceInsert (attendance : List AttendanceRow) (rec : AttendanceRow) :
    Except DbError (List AttendanceRow) :=
  if attendance.any (fun a => a.employee_id == rec.employee_id && a.date == rec.date)
  then Except.error { code := "23505" }
  else Except.ok (attendance ++ [rec])

/-- The attendance table state after an insert attempt: the new state on
success, the old state untouched on failure. -/
def attendanceInsertState (attendance : List AttendanceRow)
    (rec : AttendanceRow) : List AttendanceRow :=
  match attendanceInsert attendance rec with
  | Except.ok st => st
  | Except.error _ => attendance

/-- The toast handleSubmit shows for an attendance insert (Attendance page
lines 491-505): error code 23505 maps to the specific duplicate message,
any other error to the generic one, success to the success message. -/
def handleSubmitMessage (res : Except DbError (List AttendanceRow)) : String :=
  match res with
  | Except.error e =>
    if e.code == "23505" then "Attendance already marked for this employee on this date"
    else "Error marking attendance"
  | Except.ok _ => "Attendance marked successfully"

/-- C5: after a successful insert of an attendance record, inserting a
second record for the same (employee_id, date) pair fails with the
uniqueness ConstraintViolation (SQLSTATE 23505), the table is unchanged
with the first record intact, and the failure is reported with the
specific attendance-already-exists message, not the generic one. -/
theorem C5_duplicate_attendance (db : List AttendanceRow)
    (r1 r2 : AttendanceRow) (hemp : r2.employee_id = r1.employee_id)
    (hdate : r2.date = r1.date) (db1 : List AttendanceRow)
    (h1 : attendanceInsert db r1 = Except.ok db1) :
    attendanceInsert db1 r2 = Except.error { code := "23505" }
    ∧ attendanceInsertState db1 r2 = db1
    ∧ r1 ∈ db1
    ∧ handleSubmitMessage (attendanceInsert db1 r2) =
        "Attendance already marked for this employee on this date" := by
  rcases hA : db.any (fun a => a.employee_id == r1.employee_id && a.date == r1.date)
      with _ | _
  · have hdb1 : db1 = db ++ [r1] := by
      simp only [attendanceInsert, hA, Bool.false_eq_true, if_false,
        Except.ok.injEq] at h1
      exact h1.symm
    have hdup : db1.any
        (fun a => a.employee_id == r2.employee_id && a.date == r2.date) = true := by
      subst hdb1
      refine List.any_eq_true.mpr ⟨r1, by simp, ?_⟩
      simp [hemp, hdate]
    refine ⟨?_, ?_, ?_, ?_⟩
    · simp [attendanceInsert, hdup]
    · simp [attendanceInsertState, attendanceInsert, hdup]
    · subst hdb1; simp
    · simp [handleSubmitMessage, attendanceInsert, hdup]
  · exfalso
    simp [attendanceInsert, hA] at h1

/-- First attendance entry for employee e1 on day 5. -/
def dupAtt1 : AttendanceRow :=
  { id := "d1", employee_id := "e1", date := 5, status := AttStatus.present,
    overtime_hours := 0, advance_taken := 0, notes := none }

/-- A conflicting second entry for the same employee and day. -/
def dupAtt2 : AttendanceRow :=
  { id := "d2", employee_id := "e1", date := 5, status := AttStatus.absent,
    overtime_hours := 0, advance_taken := 0, notes := none }

theorem C5_duplicate_attendance_witness :
    attendanceInsert [dupAtt1] dupAtt2 = Except.error { code := "23505" }
    ∧ handleSubmitMessage (attendanceInsert [dupAtt1] dupAtt2) =
        "Attendance already marked for this employee on this date" :=
  ⟨(C5_duplicate_attendance [] dupAtt1 dupAtt2 rfl rfl [dupAtt1] rfl).1,
   (C5_duplicate_attendance [] dupAtt1 dupAtt2 rfl rfl [dupAtt1] rfl).2.2.2⟩

/-- The summary statistics of the Reports page. -/
structure Stats where
  totalPaid : ℚ
  totalPending : ℚ
  employeesPaid : ℕ
  averageWage : ℚ
deriving DecidableEq, Repr

/-- calculateStats (Reports.tsx lines 62-77): split the wage rows into paid
and pending, sum total_wage over each part, count the distinct employee_id
values among paid rows (new Set(...).size), and average the paid total
over the number of paid rows, 0 when there are none. -/
def calculateStats (wageData : List WageRow) : Stats :=
  let paid := wageData.filter (fun w => w.paid)
  let pending := wageData.filter (fun w => !w.paid)
  let totalPaid := paid.foldl (fun sum w => sum + w.total_wage) 0
  let totalPending := pending.foldl (fun sum w => sum + w.total_wage) 0
  let uniqueEmployees := (paid.map (fun w => w.employee_id)).toFinset.card
  let averageWage := if paid.length > 0 then totalPaid / (paid.length : ℚ) else 0
  { totalPaid := totalPaid, totalPending := totalPending,
    employeesPaid := uniqueEmployees, averageWage := averageWage }

lemma foldl_add_total_wage (l : List WageRow) :
    ∀ a : ℚ, l.foldl (fun sum w => sum + w.total_wage) a =
      a + (l.map (fun w => w.total_wage)).sum := by
  induction l with
  | nil => intro a; simp
  | cons x xs ih => intro a; simp [List.foldl_cons, ih, add_assoc]

lemma calculateStats_perm (l l' : List WageRow) (h : l.Perm l') :
    calculateStats l = calculateStats l' := by
  have hp : (l.filter (fun w => w.paid)).Perm (l'.filter (fun w => w.paid)) :=
    h.filter _
  have hq : (l.filter (fun w => !w.paid)).Perm (l'.filter (fun w => !w.paid)) :=
    h.filter _
  simp only [calculateStats, foldl_add_total_wage, zero_add]
  rw [(hp.map (fun w => w.total_wage)).sum_eq,
    (hq.map (fun w => w.total_wage)).sum_eq,
    List.toFinset_eq_of_perm _ _ (hp.map (fun w => w.employee_id)),
    hp.length_eq]

/-- C6: the reporting aggregator returns all-zero statistics on the empty
wage list, is invariant under permutation of its input, and its
averageWage is totalPaid divided by the number of paid rows, 0 when there
is no paid row. -/
theorem C6_summarize (l l' : List WageRow) (h : l.Perm l') :
    calculateStats [] =
      { totalPaid := 0, totalPending := 0, employeesPaid := 0, averageWage := 0 }
    ∧ calculateStats l = calculateStats l'
    ∧ (calculateStats l).averageWage =
        (if (l.filter (fun w => w.paid)).length > 0
         then (calculateStats l).totalPaid / (((l.filter (fun w => w.paid)).length : ℚ))
         else 0) :=
  ⟨by simp [calculateStats], calculateStats_perm l l' h, rfl⟩

/-- A paid wage row for the reporting witness. -/
def reportWage1 : WageRow :=
  { id := "rw1", employee_id := "e1", period_start := 1, period_end := 3,
    calculation_type := CalcType.weekly, base_wage := 500,
    overtime_amount := 0, advance_deductions := 0, total_wage := 500,
    paid := true, paid_at := some 10, created_at := 0, updated_at := 0 }

/-- A pending wage row for the reporting witness. -/
def reportWage2 : WageRow :=
  { id := "rw2", employee_id := "e2", period_start := 1, period_end := 3,
    calculation_type := CalcType.daily, base_wage := 300,
    overtime_amount := 0, advance_deductions := 0, total_wage := 300,
    paid := false, paid_at := none, created_at := 0, updated_at := 0 }

theorem C6_summarize_witness :
    calculateStats [reportWage1, reportWage2] =
      calculateStats [reportWage2, reportWage1] :=
  (C6_summarize [reportWage1, reportWage2] [reportWage2, reportWage1]
    (List.Perm.swap reportWage2 reportWage1 [])).2.1

/-- The all-zero wage record calculate persists when the fetched attendance
slice is empty. -/
def zeroWageRecord (empId : String) (ps pe : ℤ) (ct : CalcType) : WageInsert :=
  { employee_id := empId
    period_start := ps
    period_end := pe
    calculation_type := ct
    base_wage := 0
    overtime_amount := 0
    advance_deductions := 0
    total_wage := 0
    paid := false
    paid_at := none }

lemma fetchAttendance_eq_nil_of_gt (attendance : List AttendanceRow)
    (empId : String) (ps pe : ℤ) (h : pe < ps) :
    fetchAttendance attendance empId ps pe = [] := by
  simp only [fetchAttendance, List.filter_eq_nil_iff]
  intro a _
  simp only [Bool.and_eq_true, decide_eq_true_eq, beq_iff_eq, not_and]
  rintro ⟨-, hps⟩ hpe
  omega

lemma calculateWage_empty_slice (employees : List EmployeeRow)
    (attendance : List AttendanceRow) (empId : String) (ps pe : ℤ)
    (ct : CalcType) (e : EmployeeRow)
    (hfind : employees.find? (fun x => x.id == empId) = some e)
    (hnil : fetchAttendance attendance empId ps pe = []) :
    calculateWage employees attendance empId ps pe ct =
      Except.ok (zeroWageRecord empId ps pe ct) := by
  unfold calculateWage
  rw [hfind]
  simp [hnil, wageTotals, zeroWageRecord]

/-- C7 as stated is false: a malformed range is not rejected.  With
periodStart = 10 > periodEnd = 1 and the scenario data, calculateWage
succeeds and produces an all-zero wage record instead of failing with a
ValidationError. -/
theorem C7_counterexample :
    calculateWage [scenarioEmployee] scenarioAttendance "e1" 10 1
        CalcType.weekly =
      Except.ok (zeroWageRecord "e1" 10 1 CalcType.weekly) := by
  simp [calculateWage, fetchAttendance, wageTotals, wageStep, zeroWageRecord,
    scenarioEmployee, scenarioAttendance, List.find?, List.filter]

/-- C7 (amended): calculate performs no date-range validation.  For every
malformed range (periodStart > periodEnd) and existing employee the call
succeeds — no ValidationError is raised — and it persists an all-zero
wage record, because the fetched attendance slice is empty. -/
theorem C7_no_range_validation (employees : List EmployeeRow)
    (attendance : List AttendanceRow) (empId : String) (ps pe : ℤ)
    (ct : CalcType) (e : EmployeeRow) (hlt : pe < ps)
    (hfind : employees.find? (fun x => x.id == empId) = some e) :
    calculateWage employees attendance empId ps pe ct =
      Except.ok (zeroWageRecord empId ps pe ct) :=
  calculateWage_empty_slice employees attendance empId ps pe ct e hfind
    (fetchAttendance_eq_nil_of_gt attendance empId ps pe hlt)

theorem C7_no_range_validation_witness :
    calculateWage [scenarioEmployee] scenarioAttendance "e1" 10 1
        CalcType.monthly =
      Except.ok (zeroWageRecord "e1" 10 1 CalcType.monthly) :=
  C7_no_range_validation [scenarioEmployee] scenarioAttendance "e1" 10 1
    CalcType.monthly scenarioEmployee (by norm_num) (by rfl)

/-- C8: calculation_type is a label only.  Two calculate runs differing
only in the calculationType argument give the same outcome up to that
stored field — rewriting the label of the first run's record yields
exactly the second run's record, the four monetary fields agree, and the
stored calculation_type is the argument that was passed. -/
theorem C8_calc_type_label_only (employees : List EmployeeRow)
    (attendance : List AttendanceRow) (empId : String) (ps pe : ℤ)
    (ct1 ct2 : CalcType) :
    (calculateWage employees attendance empId ps pe ct1).map
        (fun w => { w with calculation_type := ct2 }) =
      calculateWage employees attendance empId ps pe ct2
    ∧ (calculateWage employees attendance empId ps pe ct1).map
        (fun w => (w.base_wage, w.overtime_amount, w.advance_deductions,
          w.total_wage)) =
      (calculateWage employees attendance empId ps pe ct2).map
        (fun w => (w.base_wage, w.overtime_amount, w.advance_deductions,
          w.total_wage))
    ∧ (calculateWage employees attendance empId ps pe ct1).map
        (fun w => w.calculation_type) =
      (calculateWage employees attendance empId ps pe ct1).map
        (fun _ => ct1) := by
  unfold calculateWage
  cases employees.find? (fun e => e.id == empId) <;>
    simp [Except.map]

/-- C10: when no attendance records fall inside [periodStart, periodEnd]
for the employee, calculate succeeds and persists a wage record with
base_wage = 0, overtime_amount = 0, advance_deductions = 0,
total_wage = 0 and paid initially false; and a range with
periodStart > periodEnd always yields such an empty slice. -/
theorem C10_no_attendance_zero_record (employees : List EmployeeRow)
    (attendance : List AttendanceRow) (empId : String) (ps pe : ℤ)
    (ct : CalcType) (e : EmployeeRow)
    (hfind : employees.find? (fun x => x.id == empId) = some e)
    (hempty : fetchAttendance attendance empId ps pe = []) :
    calculateWage employees attendance empId ps pe ct =
      Except.ok (zeroWageRecord empId ps pe ct)
    ∧ ∀ ps' pe' : ℤ, pe' < ps' → fetchAttendance attendance empId ps' pe' = [] :=
  ⟨calculateWage_empty_slice employees attendance empId ps pe ct e hfind hempty,
   fun ps' pe' h => fetchAttendance_eq_nil_of_gt attendance empId ps' pe' h⟩

theorem C10_no_attendance_zero_record_witness :
    calculateWage [scenarioEmployee] [] "e1" 1 3 CalcType.weekly =
      Except.ok (zeroWageRecord "e1" 1 3 CalcType.weekly) :=
  (C10_no_attendance_zero_record [scenarioEmployee] [] "e1" 1 3
    CalcType.weekly scenarioEmployee (by rfl) (by rfl)).1

end PayrollPerfect
